import Mathlib

/-!
Shallow embedding of the repository (a Flask YouTube-download service
`yt-backend/yt.py`, a frame-by-frame 4K upscaler `a.py`, and a Gravatar
OSINT lookup `b.py`), together with theorems settling the specification
claims about it.  Pure Python string manipulation is translated to
executable Lean functions on `String`/`List Char`; effectful code
(network fetches, file downloads, subprocess invocations) is modelled by
explicit oracle parameters and by event traces recording which external
operations the code performs.
-/

/-- Python-style whitespace predicate, matching the character set stripped
by `str.strip()`. -/
def pyWhitespace (c : Char) : Bool :=
  c = ' ' || c = '\t' || c = '\n' || c = '\r' || c = '\x0b' || c = '\x0c'

/-- Strip Python whitespace from both ends of a character list, the model
of `str.strip()`. -/
def pyStripList (l : List Char) : List Char :=
  ((l.dropWhile pyWhitespace).reverse.dropWhile pyWhitespace).reverse

/-- Model of Python `str.strip()`. -/
def pyStrip (s : String) : String := ⟨pyStripList s.data⟩

/-- Model of Python `str.lower()`. -/
def pyLower (s : String) : String := ⟨s.data.map Char.toLower⟩

/-- Contiguous-sublist test on character lists: `containsSubList s pat`
is true when `pat` occurs contiguously inside `s`, the model of Python's
`pat in s` on strings. -/
def containsSubList (s pat : List Char) : Bool :=
  match s with
  | [] => pat.isEmpty
  | _ :: t => pat.isPrefixOf s || containsSubList t pat

/-- Model of Python's substring containment `pat in s`. -/
def containsSub (s pat : String) : Bool := containsSubList s.data pat.data

/-- Model of Python `s.startswith(p)`. -/
def pyStartsWith (s p : String) : Bool := p.data.isPrefixOf s.data

/-- Characters kept by `clean_filename` in `yt.py`: alphanumeric, space,
hyphen, underscore. -/
def validFilenameChar (c : Char) : Bool :=
  c.isAlphanum || c == ' ' || c == '-' || c == '_'

/-- Embedding of `clean_filename(title, max_length)` from `yt.py`.  The
`Option` input distinguishes a `None` title from a present one; both
`None` and the empty string fall to the `"video"` default, mirroring
Python's `if not title`. -/
def clean_filename (title : Option String) (maxLength : Nat) : String :=
  match title with
  | none => "video"
  | some t =>
    if t = "" then "video"
    else
      let safe_title := pyStrip ⟨t.data.filter validFilenameChar⟩
      if safe_title = "" then "video"
      else ⟨safe_title.data.take maxLength⟩

example : clean_filename (some "  My *Video*!  ") 50 = "My Video" := by decide
example : clean_filename (some "!!!") 50 = "video" := by decide
example : clean_filename none 50 = "video" := by decide
example : clean_filename (some "ab") 0 = "" := by decide

/-- Model of a `pytubefix` stream object, with the attributes `yt.py`
reads: `resolution`, `is_progressive`, `subtype` (file extension),
`includes_video_track`/`includes_audio_track` exclusivity flags, and
`abr` (average bitrate). -/
structure StreamM where
  res : Option String
  progressive : Bool
  fileExt : String
  onlyVideo : Bool
  onlyAudio : Bool
  abr : Option String
deriving DecidableEq

/-- Model of a `pytubefix` `YouTube` object: the metadata fields and the
stream list `yt.py` queries. -/
structure YtM where
  title : String
  length : Nat
  streams : List StreamM
deriving DecidableEq

/-- An HTTP response of the Flask service: status code, the optional
`error_type` JSON field, and a tag naming the return site in the source
(used to tell otherwise identical responses apart). -/
structure RespM where
  status : Nat
  errorType : Option String
  tag : String
deriving DecidableEq

/-- The keyword list of the rate-limit branch of the error handler
(`yt.py` line 396). -/
def rate_keywords : List String :=
  ["bot", "blocked", "403", "forbidden", "429", "too many requests"]

/-- The keyword list of the unavailable-video branch (`yt.py` line 402). -/
def unavailable_keywords : List String :=
  ["private", "unavailable", "deleted", "removed"]

/-- The keyword list of the network branch (`yt.py` line 414). -/
def network_keywords : List String :=
  ["network", "connection", "resolve"]

/-- Case-insensitive any-keyword test, the model of
`any(keyword in error_msg.lower() for keyword in ...)`. -/
def anyKeyword (m : String) (kws : List String) : Bool :=
  kws.any fun k => containsSub m k

/-- Embedding of the `except Exception` handler of `download_video`
(`yt.py` lines 389-431): the substring-matched error taxonomy applied to
the exception message. -/
def categorize (e : String) : RespM :=
  if anyKeyword (pyLower e) rate_keywords then
    ⟨429, some "rate_limited", "err_rate_limited"⟩
  else if anyKeyword (pyLower e) unavailable_keywords then
    ⟨400, some "video_unavailable", "err_video_unavailable"⟩
  else if containsSub (pyLower e) "timeout" then
    ⟨408, some "timeout", "err_timeout"⟩
  else if anyKeyword (pyLower e) network_keywords then
    ⟨503, some "network_error", "err_network"⟩
  else if containsSub (pyLower e) "age" && containsSub (pyLower e) "restricted" then
    ⟨400, some "age_restricted", "err_age_restricted"⟩
  else
    ⟨500, some "unknown", "err_unknown"⟩

example : categorize "HTTP Error 403: Forbidden" =
    ⟨429, some "rate_limited", "err_rate_limited"⟩ := by decide
example : categorize "Video unavailable" =
    ⟨400, some "video_unavailable", "err_video_unavailable"⟩ := by decide
example : categorize "this video is age restricted" =
    ⟨400, some "age_restricted", "err_age_restricted"⟩ := by decide

/-- A rule of the spec-side error taxonomy: keyword list, whether all
keywords must occur (versus any), and the resulting status, error type
and tag. -/
structure ErrRule where
  keywords : List String
  requireAll : Bool
  status : Nat
  etype : String
  tag : String

/-- Whether a lowercased message matches a taxonomy rule. -/
def ruleMatches (m : String) (r : ErrRule) : Bool :=
  if r.requireAll then r.keywords.all (fun k => containsSub m k)
  else anyKeyword m r.keywords

/-- First-match application of a taxonomy rule table, defaulting to
status 500 with error type `unknown`, following the spec wording of the
error mapping. -/
def applyRules (rules : List ErrRule) (e : String) : RespM :=
  match rules with
  | [] => ⟨500, some "unknown", "err_unknown"⟩
  | r :: rest =>
    if ruleMatches (pyLower e) r then ⟨r.status, some r.etype, r.tag⟩
    else applyRules rest e

/-- Modelled from the spec claim: the four substring rules the claim
lists for the error taxonomy, in the order it gives them. -/
def claimedRules : List ErrRule :=
  [⟨rate_keywords, false, 429, "rate_limited", "err_rate_limited"⟩,
   ⟨unavailable_keywords, false, 400, "video_unavailable", "err_video_unavailable"⟩,
   ⟨["timeout"], false, 408, "timeout", "err_timeout"⟩,
   ⟨network_keywords, false, 503, "network_error", "err_network"⟩]

/-- The amended rule table: the claimed rules followed by the
age-restricted conjunction rule that the source applies before the
default 500 case. -/
def amendedRules : List ErrRule :=
  claimedRules ++ [⟨["age", "restricted"], true, 400, "age_restricted", "err_age_restricted"⟩]

/-- The three parameter permutations `get_youtube_object` hands to the
extraction library: `use_po_token=True, client=WEB`, then `client=WEB`,
then the library default. -/
inductive ClientParams where
  | poTokenWeb
  | webOnly
  | defaultClient
deriving DecidableEq

/-- Parameter permutation used on a given attempt index
(`yt.py` lines 47-56). -/
def paramsFor (attempt : Nat) : ClientParams :=
  if attempt = 0 then .poTokenWeb
  else if attempt = 1 then .webOnly
  else .defaultClient

/-- Externally observable events of the retry loop: a `time.sleep` call
or a call into the extraction library with given parameters. -/
inductive Ev where
  | sleep
  | call (p : ClientParams)
deriving DecidableEq

/-- The rate-limit keyword test of the retry loop's `except` block
(`yt.py` line 63). -/
def isRateLimitedErr (e : String) : Bool :=
  anyKeyword (pyLower e) ["429", "too many", "rate limit", "bot"]

/-- Embedding of the `for attempt in range(max_retries)` loop body of
`get_youtube_object`.  `fetch a` is the oracle giving the outcome of the
library call made on attempt `a` (success object or raised exception
message); the list argument is the remaining attempt indices.  The
result pairs the trace of sleeps and library calls with the loop's
outcome: the first success, the re-raised final-attempt exception, or
the `return None` reached only when the loop runs out of attempts. -/
def gyoGo (fetch : Nat → Except String YtM) (maxRetries : Nat) :
    List Nat → List Ev × Except String (Option YtM)
  | [] => ([], .ok none)
  | a :: rest =>
    let pre := (if 0 < a then [Ev.sleep] else []) ++ (if 2 ≤ a then [Ev.sleep] else [])
    match fetch a with
    | .ok y => (pre ++ [Ev.call (paramsFor a)], .ok (some y))
    | .error e =>
      let rl := if isRateLimitedErr e && a < maxRetries - 1 then [Ev.sleep] else []
      if a = maxRetries - 1 then
        (pre ++ [Ev.call (paramsFor a)] ++ rl, .error e)
      else
        let rec2 := gyoGo fetch maxRetries rest
        (pre ++ [Ev.call (paramsFor a)] ++ rl ++ rec2.1, rec2.2)

/-- Embedding of `get_youtube_object(url, max_retries)` (`yt.py` lines
34-73), abstracted over the extraction-library oracle `fetch`. -/
def get_youtube_object (fetch : Nat → Except String YtM) (maxRetries : Nat) :
    List Ev × Except String (Option YtM) :=
  gyoGo fetch maxRetries (List.range maxRetries)

/-- Parameter permutations of the library calls in a trace, in order. -/
def callsOf (tr : List Ev) : List ClientParams :=
  tr.filterMap fun e => match e with | .call p => some p | .sleep => none

/-- Whether an event is a sleep. -/
def isSleep : Ev → Bool
  | .sleep => true
  | .call _ => false

/-- True when every library call except possibly the first event of the
trace is immediately preceded by a sleep. -/
def laterCallsSleepPreceded : List Ev → Bool
  | x :: y :: rest =>
    (match y with
     | Ev.call _ => isSleep x
     | Ev.sleep => true) && laterCallsSleepPreceded (y :: rest)
  | _ => true

example :
    get_youtube_object (fun _ => Except.error "boom") 3 =
      ([Ev.call .poTokenWeb, Ev.sleep, Ev.call .webOnly,
        Ev.sleep, Ev.sleep, Ev.call .defaultClient],
       Except.error "boom") := rfl

/-- Numeric value of a `pytubefix` ordering attribute such as
`"1080p"` or `"128kbps"`: the digits of the string read as a number,
the model of the library's integer-extracting comparison key. -/
def digitsVal (s : String) : Nat :=
  (s.data.filter Char.isDigit).foldl (fun n c => n * 10 + (c.toNat - 48)) 0

/-- Largest-key element of a stream list, preferring later elements on
ties, the model of the library's stable ascending sort followed by
`.desc().first()`. -/
def argmaxKey (key : StreamM → Nat) : List StreamM → Option StreamM
  | [] => none
  | s :: rest =>
    match argmaxKey key rest with
    | none => some s
    | some m => if key s > key m then some s else some m

/-- Model of `.order_by(attr).desc().first()`: streams whose attribute is
absent are dropped, then the maximum by the numeric key is taken. -/
def orderByDescFirst (key : StreamM → Option Nat) (l : List StreamM) : Option StreamM :=
  argmaxKey (fun s => (key s).getD 0) (l.filter fun s => (key s).isSome)

/-- Model of `yt.streams.filter(res=resolution, progressive=True).first()`
(`yt.py` line 213). -/
def progFilter (yt : YtM) (resolution : String) : Option StreamM :=
  (yt.streams.filter fun s => s.res == some resolution && s.progressive).head?

/-- Model of the separate-video-stream selection (`yt.py` lines 236-248):
an mp4 video-only stream at the requested resolution, else the best
available mp4 video-only stream by resolution. -/
def selectVideoStream (yt : YtM) (resolution : String) : Option StreamM :=
  match (yt.streams.filter fun s =>
      s.res == some resolution && s.fileExt == "mp4" && s.onlyVideo).head? with
  | some v => some v
  | none =>
    orderByDescFirst (fun s => s.res.map digitsVal)
      (yt.streams.filter fun s => s.fileExt == "mp4" && s.onlyVideo)

/-- Model of the audio-stream selection (`yt.py` lines 251-259): the best
mp4 audio-only stream by bitrate, else the best audio-only stream of any
format. -/
def selectAudioStream (yt : YtM) : Option StreamM :=
  match orderByDescFirst (fun s => s.abr.map digitsVal)
      (yt.streams.filter fun s => s.onlyAudio && s.fileExt == "mp4") with
  | some a => some a
  | none =>
    orderByDescFirst (fun s => s.abr.map digitsVal)
      (yt.streams.filter fun s => s.onlyAudio)

/-- External effects of the download stage: a `.download()` call on a
stream, or the ffmpeg merge subprocess invocation. -/
inductive DlEffect where
  | download (s : StreamM)
  | ffmpeg
deriving DecidableEq

/-- Outcome of the ffmpeg merge subprocess: zero exit, nonzero exit, or
`subprocess.TimeoutExpired`. -/
inductive FfOut where
  | success
  | failed
  | timedOut
deriving DecidableEq

/-- Embedding of the stream-selection-and-download stage of POST /
(`yt.py` lines 211-357): progressive single-file download when one
matches, otherwise separate video and audio downloads merged by ffmpeg.
`dlOk s` tells whether the `.download()` call on `s` succeeds, `ffOut`
the merge outcome.  Returns the trace of download and subprocess effects
together with the HTTP response. -/
def downloadCore (dlOk : StreamM → Bool) (ffOut : FfOut) (yt : YtM)
    (resolution : String) : List DlEffect × RespM :=
  match progFilter yt resolution with
  | some vs =>
    if dlOk vs then ([DlEffect.download vs], ⟨200, none, "progressive_ok"⟩)
    else ([DlEffect.download vs], ⟨500, none, "progressive_dl_failed"⟩)
  | none =>
    match selectVideoStream yt resolution, selectAudioStream yt with
    | some v, some a =>
      if dlOk v then
        if dlOk a then
          match ffOut with
          | .success => ([DlEffect.download v, DlEffect.download a, DlEffect.ffmpeg],
              ⟨200, none, "merge_ok"⟩)
          | .failed => ([DlEffect.download v, DlEffect.download a, DlEffect.ffmpeg],
              ⟨500, none, "ffmpeg_failed"⟩)
          | .timedOut => ([DlEffect.download v, DlEffect.download a, DlEffect.ffmpeg],
              ⟨408, none, "ffmpeg_timeout"⟩)
        else ([DlEffect.download v, DlEffect.download a], ⟨500, none, "stream_dl_failed"⟩)
      else ([DlEffect.download v], ⟨500, none, "stream_dl_failed"⟩)
    | _, _ => ([], ⟨400, none, "no_streams"⟩)

/-- JSON body of a POST / request: the optional `url` and `resolution`
fields. -/
structure ReqBody where
  url : Option String
  resolution : Option String

/-- The accepted YouTube URL prefixes (`yt.py` lines 170-175). -/
def valid_domains : List String :=
  ["https://www.youtube.com/watch",
   "https://youtu.be/",
   "https://m.youtube.com/watch",
   "https://youtube.com/watch"]

/-- Embedding of the POST / handler `download_video` (`yt.py` lines
149-431): request validation, the extraction-object result `g` (an
exception propagating to the taxonomy handler, the `None` guard, or a
`YouTube` object), then the download stage. -/
def download_video (dlOk : StreamM → Bool) (ffOut : FfOut)
    (g : Except String (Option YtM)) (body : Option ReqBody) :
    List DlEffect × RespM :=
  match body with
  | none => ([], ⟨400, none, "no_json"⟩)
  | some data =>
    if pyStrip (data.url.getD "") = "" then ([], ⟨400, none, "no_url"⟩)
    else if !(valid_domains.any fun d => pyStartsWith (pyStrip (data.url.getD "")) d) then
      ([], ⟨400, none, "invalid_url"⟩)
    else
      match g with
      | .error e => ([], categorize e)
      | .ok none => ([], ⟨429, none, "could_not_access"⟩)
      | .ok (some yt) => downloadCore dlOk ffOut yt (pyStrip (data.resolution.getD "1080p"))

/-- The download folder of the service (`yt.py` line 23). -/
def DOWNLOAD_FOLDER : String := "downloads"

/-- Embedding of the GET /download/filename handler `serve_file`
(`yt.py` lines 433-465).  `fsExists` and `fsSize` are the filesystem
oracles; the returned list is the trace of paths touched by filesystem
operations, in order. -/
def serve_file (fsExists : String → Bool) (fsSize : String → Nat)
    (filename : String) : List String × RespM :=
  if containsSub filename ".." || containsSub filename "/" || containsSub filename "\\" then
    ([], ⟨400, none, "invalid_filename"⟩)
  else
    if !(fsExists (DOWNLOAD_FOLDER ++ "/" ++ filename)) then
      ([DOWNLOAD_FOLDER ++ "/" ++ filename], ⟨404, none, "not_found"⟩)
    else if fsSize (DOWNLOAD_FOLDER ++ "/" ++ filename) = 0 then
      ([DOWNLOAD_FOLDER ++ "/" ++ filename, DOWNLOAD_FOLDER ++ "/" ++ filename],
       ⟨500, none, "empty_file"⟩)
    else
      ([DOWNLOAD_FOLDER ++ "/" ++ filename, DOWNLOAD_FOLDER ++ "/" ++ filename,
        DOWNLOAD_FOLDER ++ "/" ++ filename], ⟨200, none, "serve"⟩)

example :
    serve_file (fun _ => true) (fun _ => 5) "../secret" =
      ([], ⟨400, none, "invalid_filename"⟩) := by decide
example :
    serve_file (fun _ => true) (fun _ => 5) "a.mp4" =
      (["downloads/a.mp4", "downloads/a.mp4", "downloads/a.mp4"],
       ⟨200, none, "serve"⟩) := by decide

/-- Input video path of the upscaler (`a.py` line 6). -/
def input_path : String := "output_1080p.mp4"

/-- Temporary upscaled-video path of the upscaler (`a.py` line 7). -/
def temp_video_path : String := "temp_4k_video.mp4"

/-- Final output path of the upscaler (`a.py` line 8). -/
def output_path : String := "output_4k_final.mp4"

/-- Target 4K width (`a.py` line 20). -/
def fourk_width : Nat := 3840

/-- Target 4K height (`a.py` line 21). -/
def fourk_height : Nat := 2160

/-- The audio-merge ffmpeg invocation of the upscaler (`a.py` lines
51-61), argument for argument. -/
def mergeCommand : List String :=
  ["ffmpeg",
   "-i", temp_video_path,
   "-i", input_path,
   "-c:v", "copy",
   "-c:a", "aac",
   "-map", "0:v:0",
   "-map", "1:a:0",
   "-y",
   output_path]

/-- Values following each occurrence of a flag in a command line, in
order: `argsAfter "-i" cmd` lists the input files of an ffmpeg command. -/
def argsAfter (flag : String) : List String → List String
  | x :: y :: rest => (if x = flag then [y] else []) ++ argsAfter flag (y :: rest)
  | _ => []

/-- The value of a flag that occurs once, such as a codec selection. -/
def flagValue (cmd : List String) (flag : String) : Option String :=
  (argsAfter flag cmd).head?

example : argsAfter "-i" mergeCommand = [temp_video_path, input_path] := by decide
example : flagValue mergeCommand "-c:a" = some "aac" := by decide

/-- OpenCV interpolation modes the upscaler could pass to `cv2.resize`. -/
inductive Interp where
  | nearest
  | linear
  | cubic
deriving DecidableEq

/-- Embedding of the upscaling `while True` loop (`a.py` lines 31-43),
abstracted over the frame type `F`, the `cv2.resize` oracle and the
`cap.read()` oracle: `read i` is the outcome of the i-th read call.
Each successfully read frame is resized to 3840x2160 with cubic
interpolation and appended to the output; the loop stops at the first
failed read.  The fuel argument bounds the number of iterations so the
function is total; the loop theorem is stated for any sufficient fuel. -/
def upscaleLoop {F : Type} (resize : F → Nat → Nat → Interp → F)
    (read : Nat → Option F) : Nat → Nat → List F
  | 0, _ => []
  | fuel + 1, i =>
    match read i with
    | none => []
    | some frame =>
      resize frame fourk_width fourk_height Interp.cubic ::
        upscaleLoop resize read fuel (i + 1)

example :
    upscaleLoop (fun f w h _ => f + w + h) (fun i => List.get? [5, 7] i) 10 0 =
      [6005, 6007] := by decide

/-- A profile name object of the Gravatar JSON (`b.py` line 16): the
`formatted` field of the `name` dictionary. -/
structure NameObj where
  formatted : Option String
deriving DecidableEq

/-- A profile entry of the Gravatar JSON (`b.py` lines 13-16): the
optional `profileUrl` and `name` fields. -/
structure GravProfile where
  profileUrl : Option String
  name : Option NameObj
deriving DecidableEq

/-- Parsed body of a Gravatar response: the optional `entry` list of the
JSON document. -/
def GravBody := Option (List GravProfile)

/-- Outcome of the `requests.get` call in `check_gravatar`: a raised
exception, or a response with a status code and a body whose JSON
decoding may itself raise. -/
inductive GravResp where
  | exn
  | resp (status : Nat) (body : Except String GravBody)

/-- The lookup result dictionary built by `check_gravatar` (`b.py`
lines 14-17); its two fields are exactly the keys of that dictionary. -/
structure GravResult where
  gravatar_profile : Option String
  name : Option String
deriving DecidableEq

/-- The Gravatar profile URL for an email (`b.py` lines 7-8): derived
from the hash of the lowercased email.  The MD5 function lives in
`hashlib`, outside this repository, so it is an oracle parameter. -/
def gravatar_url (md5 : String → String) (email : String) : String :=
  "https://www.gravatar.com/" ++ md5 (pyLower email) ++ ".json"

/-- Embedding of `check_gravatar(email)` (`b.py` lines 5-20): query the
avatar service at the hash-derived URL; on status 200 parse the JSON and
build the two-key result from the first entry; on any other status, any
exception, or an empty `entry` list (whose `[0]` indexing raises), the
function returns `None`. -/
def check_gravatar (md5 : String → String) (get : String → GravResp)
    (email : String) : Option GravResult :=
  match get (gravatar_url md5 email) with
  | .exn => none
  | .resp status body =>
    if status = 200 then
      match body with
      | .error _ => none
      | .ok data =>
        match data.getD [⟨none, none⟩] with
        | [] => none
        | p :: _ =>
          some ⟨p.profileUrl, ((p.name.getD ⟨none⟩).formatted)⟩
    else none

example :
    check_gravatar (fun s => s) (fun _ => GravResp.resp 404 (Except.ok none)) "A@B" =
      none := rfl
example :
    check_gravatar (fun s => s)
      (fun _ => GravResp.resp 200 (Except.ok (some [⟨some "u", some ⟨some "n"⟩⟩])))
      "A@B" = some ⟨some "u", some "n"⟩ := rfl

/-- C4: the POST / endpoint returns 400 with no download effects when the
JSON body is missing, when the url field is absent or empty after
stripping, or when the url does not start with one of the four accepted
YouTube prefixes; and an absent resolution field behaves exactly like an
explicit "1080p". -/
theorem spec_c4 (dlOk : StreamM → Bool) (ffOut : FfOut) (g : Except String (Option YtM)) :
    download_video dlOk ffOut g none = ([], ⟨400, none, "no_json"⟩)
    ∧ (∀ data : ReqBody, pyStrip (data.url.getD "") = "" →
        download_video dlOk ffOut g (some data) = ([], ⟨400, none, "no_url"⟩))
    ∧ (∀ data : ReqBody, pyStrip (data.url.getD "") ≠ "" →
        (valid_domains.any fun d => pyStartsWith (pyStrip (data.url.getD "")) d) = false →
        download_video dlOk ffOut g (some data) = ([], ⟨400, none, "invalid_url"⟩))
    ∧ (∀ u : Option String,
        download_video dlOk ffOut g (some ⟨u, none⟩) =
          download_video dlOk ffOut g (some ⟨u, some "1080p"⟩)) := by
  refine ⟨rfl, ?_, ?_, ?_⟩
  · intro data h
    simp [download_video, h]
  · intro data h1 h2
    simp [download_video, h1, h2]
  · intro u
    rfl

/-- C4 witness: concrete requests exercising the empty-url and
invalid-url rejections. -/
theorem spec_c4_witness :
    download_video (fun _ => true) FfOut.success (Except.ok none) (some ⟨some "   ", none⟩) =
      ([], ⟨400, none, "no_url"⟩)
    ∧ download_video (fun _ => true) FfOut.success (Except.ok none)
        (some ⟨some "ftp://example.com/v", none⟩) = ([], ⟨400, none, "invalid_url"⟩) :=
  ⟨(spec_c4 (fun _ => true) FfOut.success (Except.ok none)).2.1 _ (by decide),
   (spec_c4 (fun _ => true) FfOut.success (Except.ok none)).2.2.1 _ (by decide) (by decide)⟩

/-- C9: a filename containing "..", "/" or a backslash is rejected with
status 400 and an empty filesystem-access trace, and every path the
handler ever touches is the download-folder path of the given filename. -/
theorem spec_c9 (fsExists : String → Bool) (fsSize : String → Nat) (filename : String) :
    ((containsSub filename ".." || containsSub filename "/" || containsSub filename "\\") = true →
      serve_file fsExists fsSize filename = ([], ⟨400, none, "invalid_filename"⟩))
    ∧ ∀ p, p ∈ (serve_file fsExists fsSize filename).1 →
        p = DOWNLOAD_FOLDER ++ "/" ++ filename := by
  constructor
  · intro h
    simp [serve_file, h]
  · intro p hp
    unfold serve_file at hp
    split at hp
    · simp at hp
    · split at hp
      · simp at hp
        exact hp
      · split at hp <;> simp at hp <;> exact hp

/-- C9 witness: a traversal filename is rejected without touching the
filesystem. -/
theorem spec_c9_witness :
    serve_file (fun _ => true) (fun _ => 7) "../etc/passwd" =
      ([], ⟨400, none, "invalid_filename"⟩) :=
  (spec_c9 (fun _ => true) (fun _ => 7) "../etc/passwd").1 (by decide)

/-- C5 counterexample: the claim that the merge step copies the audio
without re-encoding (and the video as-is) is false of the ffmpeg
invocation in `a.py`, whose audio codec argument is "aac", not "copy". -/
theorem spec_c5_counterexample :
    ¬ (flagValue mergeCommand "-c:a" = some "copy"
       ∧ flagValue mergeCommand "-c:v" = some "copy") := by
  decide

/-- C5 amended: the merge step copies the upscaled video stream without
re-encoding, takes its video from the upscaled temporary file and its
audio from the original input, but re-encodes that audio to AAC. -/
theorem spec_c5_amended :
    flagValue mergeCommand "-c:v" = some "copy"
    ∧ flagValue mergeCommand "-c:a" = some "aac"
    ∧ argsAfter "-i" mergeCommand = [temp_video_path, input_path]
    ∧ argsAfter "-map" mergeCommand = ["0:v:0", "1:a:0"] := by
  decide

/-- C2 counterexample: the message "age restricted" matches none of the
four claimed substring rules, so the claim predicts status 500 with
error type "unknown", but the code returns 400 with error type
"age_restricted". -/
theorem spec_c2_counterexample :
    categorize "age restricted" = ⟨400, some "age_restricted", "err_age_restricted"⟩
    ∧ applyRules claimedRules "age restricted" = ⟨500, some "unknown", "err_unknown"⟩
    ∧ categorize "age restricted" ≠ applyRules claimedRules "age restricted" := by
  decide

/-- C2 amended: on every exception message the error handler implements
exactly the claimed first-match substring taxonomy extended with one
more rule, applied before the default case: a message containing both
"age" and "restricted" yields 400 with error type "age_restricted". -/
theorem spec_c2_amended (e : String) : categorize e = applyRules amendedRules e := by
  dsimp only [categorize, applyRules, amendedRules, claimedRules, ruleMatches,
    List.cons_append, List.nil_append, List.all, anyKeyword, List.any]
  simp

/-- Dropping a prefix with `dropWhile` keeps a sublist of the input. -/
theorem dropWhile_subset_self (p : Char → Bool) (l : List Char) : l.dropWhile p ⊆ l := by
  induction l with
  | nil => simp
  | cons a t ih =>
    cases h : p a
    · simp [List.dropWhile, h]
    · simp only [List.dropWhile, h]
      intro x hx
      exact List.mem_cons_of_mem a (ih hx)

/-- Stripping whitespace keeps a subset of the characters. -/
theorem pyStripList_subset (l : List Char) : pyStripList l ⊆ l := by
  intro c hc
  unfold pyStripList at hc
  rw [List.mem_reverse] at hc
  have h1 := dropWhile_subset_self pyWhitespace _ hc
  rw [List.mem_reverse] at h1
  exact dropWhile_subset_self pyWhitespace _ h1

/-- A string built from a nonempty character list is not the empty
string. -/
theorem stringMk_ne_empty {l : List Char} (h : l ≠ []) : (⟨l⟩ : String) ≠ "" :=
  fun he => h (congrArg String.data he)

/-- C8 counterexample: with `max_length = 0` the function returns the
empty string, and with `max_length = 3` the `"video"` default exceeds
the bound, so the claim quantified over every `max_length` fails. -/
theorem spec_c8_counterexample :
    clean_filename (some "ab") 0 = ""
    ∧ clean_filename (some "") 3 = "video"
    ∧ ¬ (("video" : String).data.length ≤ 3) := by
  decide

/-- C8 amended: for every title and every `max_length` at least 5 (so in
particular for the default 50), `clean_filename` returns a nonempty
string of length at most `max_length` containing only alphanumerics,
spaces, hyphens and underscores, and returns "video" when the title is
`None`, empty, or has no valid characters after filtering and
stripping. -/
theorem spec_c8_amended (title : Option String) (maxLength : Nat) (h5 : 5 ≤ maxLength) :
    clean_filename title maxLength ≠ ""
    ∧ (clean_filename title maxLength).data.length ≤ maxLength
    ∧ (clean_filename title maxLength).data.all validFilenameChar = true
    ∧ ((title = none ∨ title = some "") → clean_filename title maxLength = "video")
    ∧ (∀ t, title = some t → pyStrip ⟨t.data.filter validFilenameChar⟩ = "" →
        clean_filename title maxLength = "video") := by
  cases title with
  | none =>
    have hv : clean_filename none maxLength = "video" := rfl
    refine ⟨by rw [hv]; decide, ?_, by rw [hv]; decide, fun _ => hv, fun t ht => by cases ht⟩
    rw [hv]
    calc ("video" : String).data.length = 5 := by decide
      _ ≤ maxLength := h5
  | some t =>
    by_cases ht : t = ""
    · subst ht
      have hv : clean_filename (some "") maxLength = "video" := rfl
      refine ⟨by rw [hv]; decide, ?_, by rw [hv]; decide, fun _ => hv, fun t2 ht2 _ => hv⟩
      rw [hv]
      calc ("video" : String).data.length = 5 := by decide
        _ ≤ maxLength := h5
    · by_cases hs : pyStrip ⟨t.data.filter validFilenameChar⟩ = ""
      · have hv : clean_filename (some t) maxLength = "video" := by
          simp [clean_filename, ht, hs]
        refine ⟨?_, ?_, ?_, ?_, ?_⟩
        · rw [hv]; decide
        · rw [hv]
          calc ("video" : String).data.length = 5 := by decide
            _ ≤ maxLength := h5
        · rw [hv]; decide
        · intro hd
          rcases hd with hd | hd
          · cases hd
          · exact absurd (Option.some.inj hd) ht
        · intro t2 ht2 _
          exact hv
      · have hv : clean_filename (some t) maxLength =
            ⟨(pyStrip ⟨t.data.filter validFilenameChar⟩).data.take maxLength⟩ := by
          simp [clean_filename, ht, hs]
        have hdata : (clean_filename (some t) maxLength).data =
            (pyStrip ⟨t.data.filter validFilenameChar⟩).data.take maxLength :=
          congrArg String.data hv
        refine ⟨?_, ?_, ?_, ?_, ?_⟩
        · rw [hv]
          apply stringMk_ne_empty
          intro hnil
          rw [List.take_eq_nil_iff] at hnil
          rcases hnil with h0 | h0
          · omega
          · exact hs (congrArg (fun l => (⟨l⟩ : String)) h0)
        · rw [hdata, List.length_take]
          exact min_le_left _ _
        · rw [hdata]
          rw [List.all_eq_true]
          intro c hc
          have hc2 : c ∈ (pyStrip ⟨t.data.filter validFilenameChar⟩).data :=
            List.take_subset _ _ hc
          have hc3 : c ∈ t.data.filter validFilenameChar := pyStripList_subset _ hc2
          exact (List.mem_filter.mp hc3).2
        · intro hd
          rcases hd with hd | hd
          · cases hd
          · exact absurd (Option.some.inj hd) ht
        · intro t2 ht2 hstrip
          cases Option.some.inj ht2
          exact absurd hstrip hs

/-- C8 witness: the default `max_length = 50` satisfies the bound, and a
concrete title is cleaned to a nonempty sanitized string. -/
theorem spec_c8_witness :
    clean_filename (some "My *Video*!") 50 ≠ ""
    ∧ (clean_filename (some "My *Video*!") 50).data.length ≤ 50 :=
  ⟨(spec_c8_amended (some "My *Video*!") 50 (by decide)).1,
   (spec_c8_amended (some "My *Video*!") 50 (by decide)).2.1⟩

/-- Formalization of claim C1 at one input: if a progressive stream
matches, the effect trace is exactly that single download; otherwise the
handler downloads some separate video and audio streams and invokes
ffmpeg. -/
def c1ClaimAt (dlOk : StreamM → Bool) (ffOut : FfOut) (yt : YtM) (resolution : String) : Prop :=
  match progFilter yt resolution with
  | some vs => (downloadCore dlOk ffOut yt resolution).1 = [DlEffect.download vs]
  | none => ∃ v a, (downloadCore dlOk ffOut yt resolution).1 =
      [DlEffect.download v, DlEffect.download a, DlEffect.ffmpeg]

/-- C1 counterexample: a video with no streams at all reaches stream
selection with no progressive match, yet the handler downloads nothing
and never invokes ffmpeg — it returns 400 — so the claim's otherwise
branch is false. -/
theorem spec_c1_counterexample :
    ¬ c1ClaimAt (fun _ => true) FfOut.success ⟨"T", 0, []⟩ "1080p" := by
  intro h
  simp only [c1ClaimAt, progFilter, downloadCore, selectVideoStream, selectAudioStream,
    orderByDescFirst, argmaxKey, List.filter_nil, List.head?] at h
  rcases h with ⟨v, a, hva⟩
  cases hva

/-- C1 amended: when a progressive stream matches the requested
resolution the effect trace is exactly its single download (so ffmpeg is
never invoked); otherwise, when separate video and audio streams are
found and both downloads succeed, the trace is the two downloads
followed by the ffmpeg merge; when no suitable pair exists the handler
returns 400 with no effects; any ffmpeg invocation implies no
progressive stream matched; and when a stream download fails — the
progressive one, the separate video one, or the separate audio one —
the handler returns a 500 error with the trace ending at the failed
download, so ffmpeg is never invoked. -/
theorem spec_c1_amended (dlOk : StreamM → Bool) (ffOut : FfOut) (yt : YtM)
    (resolution : String) :
    (∀ vs, progFilter yt resolution = some vs →
      (downloadCore dlOk ffOut yt resolution).1 = [DlEffect.download vs])
    ∧ (progFilter yt resolution = none →
        ∀ v a, selectVideoStream yt resolution = some v → selectAudioStream yt = some a →
          dlOk v = true → dlOk a = true →
          (downloadCore dlOk ffOut yt resolution).1 =
            [DlEffect.download v, DlEffect.download a, DlEffect.ffmpeg])
    ∧ (progFilter yt resolution = none →
        (selectVideoStream yt resolution = none ∨ selectAudioStream yt = none) →
        downloadCore dlOk ffOut yt resolution = ([], ⟨400, none, "no_streams"⟩))
    ∧ (DlEffect.ffmpeg ∈ (downloadCore dlOk ffOut yt resolution).1 →
        progFilter yt resolution = none)
    ∧ (∀ vs, progFilter yt resolution = some vs → dlOk vs = false →
        downloadCore dlOk ffOut yt resolution =
          ([DlEffect.download vs], ⟨500, none, "progressive_dl_failed"⟩))
    ∧ (progFilter yt resolution = none →
        ∀ v a, selectVideoStream yt resolution = some v → selectAudioStream yt = some a →
          dlOk v = false →
          downloadCore dlOk ffOut yt resolution =
            ([DlEffect.download v], ⟨500, none, "stream_dl_failed"⟩))
    ∧ (progFilter yt resolution = none →
        ∀ v a, selectVideoStream yt resolution = some v → selectAudioStream yt = some a →
          dlOk v = true → dlOk a = false →
          downloadCore dlOk ffOut yt resolution =
            ([DlEffect.download v, DlEffect.download a],
             ⟨500, none, "stream_dl_failed"⟩)) := by
  refine ⟨?_, ?_, ?_, ?_, ?_, ?_, ?_⟩
  · intro vs h
    cases hd : dlOk vs <;> simp [downloadCore, h, hd]
  · intro h v a hv ha hdv hda
    cases ffOut <;> simp [downloadCore, h, hv, ha, hdv, hda]
  · intro h hor
    rcases hor with h1 | h1
    · simp [downloadCore, h, h1]
    · cases hv : selectVideoStream yt resolution <;> simp [downloadCore, h, hv, h1]
  · intro hmem
    cases hp : progFilter yt resolution with
    | none => rfl
    | some vs =>
      cases hd : dlOk vs <;> simp [downloadCore, hp, hd] at hmem
  · intro vs h hd
    simp [downloadCore, h, hd]
  · intro h v a hv ha hdv
    simp [downloadCore, h, hv, ha, hdv]
  · intro h v a hv ha hdv hda
    simp [downloadCore, h, hv, ha, hdv, hda]

/-- C1 witness: a concrete progressive request downloads one file with
no ffmpeg call, a concrete non-progressive request downloads the video
and audio streams and merges them, and a concrete failing video
download yields a 500 error with no further downloads and no ffmpeg. -/
theorem spec_c1_witness :
    (downloadCore (fun _ => true) FfOut.success
        ⟨"T", 0, [⟨some "1080p", true, "mp4", false, false, none⟩]⟩ "1080p").1 =
      [DlEffect.download ⟨some "1080p", true, "mp4", false, false, none⟩]
    ∧ (downloadCore (fun _ => true) FfOut.success
        ⟨"T", 0, [⟨some "1080p", false, "mp4", true, false, none⟩,
                  ⟨none, false, "mp4", false, true, some "128kbps"⟩]⟩ "1080p").1 =
      [DlEffect.download ⟨some "1080p", false, "mp4", true, false, none⟩,
       DlEffect.download ⟨none, false, "mp4", false, true, some "128kbps"⟩,
       DlEffect.ffmpeg]
    ∧ downloadCore (fun _ => false) FfOut.success
        ⟨"T", 0, [⟨some "1080p", false, "mp4", true, false, none⟩,
                  ⟨none, false, "mp4", false, true, some "128kbps"⟩]⟩ "1080p" =
      ([DlEffect.download ⟨some "1080p", false, "mp4", true, false, none⟩],
       ⟨500, none, "stream_dl_failed"⟩) :=
  ⟨(spec_c1_amended (fun _ => true) FfOut.success
      ⟨"T", 0, [⟨some "1080p", true, "mp4", false, false, none⟩]⟩ "1080p").1
      _ (by decide),
   (spec_c1_amended (fun _ => true) FfOut.success
      ⟨"T", 0, [⟨some "1080p", false, "mp4", true, false, none⟩,
                ⟨none, false, "mp4", false, true, some "128kbps"⟩]⟩ "1080p").2.1
      (by decide) _ _ (by decide) (by decide) rfl rfl,
   (spec_c1_amended (fun _ => false) FfOut.success
      ⟨"T", 0, [⟨some "1080p", false, "mp4", true, false, none⟩,
                ⟨none, false, "mp4", false, true, some "128kbps"⟩]⟩ "1080p").2.2.2.2.2.1
      (by decide) ⟨some "1080p", false, "mp4", true, false, none⟩
      ⟨none, false, "mp4", false, true, some "128kbps"⟩ (by decide) (by decide) rfl⟩

/-- Unfolding lemma for the upscale loop on a segment of successful
reads ending at the first failed read. -/
theorem upscaleLoop_go {F : Type} (resize : F → Nat → Nat → Interp → F)
    (read : Nat → Option F) (g : Nat → F) (k : Nat)
    (hread : ∀ i, i < k → read i = some (g i)) (hstop : read k = none) :
    ∀ fuel j, j ≤ k → k < j + fuel →
      upscaleLoop resize read fuel j =
        (List.range' j (k - j)).map
          (fun i => resize (g i) fourk_width fourk_height Interp.cubic) := by
  intro fuel
  induction fuel with
  | zero =>
    intro j hj hlt
    omega
  | succ n ih =>
    intro j hj hlt
    by_cases hjk : j = k
    · subst hjk
      simp [upscaleLoop, hstop]
    · have hjlt : j < k := lt_of_le_of_ne hj hjk
      have hkj : k - j = (k - (j + 1)) + 1 := by omega
      rw [hkj, List.range'_succ]
      simp only [List.map_cons]
      rw [upscaleLoop, hread j hjlt]
      simp only []
      congr 1
      exact ih (j + 1) (by omega) (by omega)

/-- C6: when the first `k` reads succeed with frames `g 0, ..., g (k-1)`
and read `k` fails, the upscale loop writes exactly one frame per
successful read, each resized to 3840x2160 with cubic interpolation, in
read order, and stops at the first failed read. -/
theorem spec_c6 {F : Type} (resize : F → Nat → Nat → Interp → F)
    (read : Nat → Option F) (g : Nat → F) (k : Nat)
    (hread : ∀ i, i < k → read i = some (g i)) (hstop : read k = none)
    (fuel : Nat) (hfuel : k < fuel) :
    upscaleLoop resize read fuel 0 =
      (List.range k).map
        (fun i => resize (g i) fourk_width fourk_height Interp.cubic) := by
  rw [List.range_eq_range']
  have h := upscaleLoop_go resize read g k hread hstop fuel 0 (Nat.zero_le k) (by omega)
  simpa using h

/-- C6 witness: a two-frame video is upscaled to exactly two frames in
order. -/
theorem spec_c6_witness :
    upscaleLoop (fun f w h _ => f + w + h) (fun i => List.get? [5, 7] i) 3 0 =
      [6005, 6007] := by
  rw [spec_c6 (fun f w h _ => f + w + h) (fun i => List.get? [5, 7] i)
    (fun i => List.getD [5, 7] i 0) 2 (by decide) (by decide) 3 (by decide)]
  decide

/-- C3: with the default three retries, the loop makes at most three
library calls, its call sequence is a prefix of the permutation list
(po_token with WEB client, WEB client only, default), every call after
the first is immediately preceded by a sleep, and the loop returns the
object of the first successful attempt or raises the exception of the
final attempt. -/
theorem spec_c3 (fetch : Nat → Except String YtM) :
    (callsOf (get_youtube_object fetch 3).1).length ≤ 3
    ∧ List.isPrefixOf (callsOf (get_youtube_object fetch 3).1)
        [ClientParams.poTokenWeb, ClientParams.webOnly, ClientParams.defaultClient] = true
    ∧ laterCallsSleepPreceded (get_youtube_object fetch 3).1 = true
    ∧ (∀ y, fetch 0 = Except.ok y → (get_youtube_object fetch 3).2 = Except.ok (some y))
    ∧ (∀ e0 y, fetch 0 = Except.error e0 → fetch 1 = Except.ok y →
        (get_youtube_object fetch 3).2 = Except.ok (some y))
    ∧ (∀ e0 e1 y, fetch 0 = Except.error e0 → fetch 1 = Except.error e1 →
        fetch 2 = Except.ok y → (get_youtube_object fetch 3).2 = Except.ok (some y))
    ∧ (∀ e0 e1 e2, fetch 0 = Except.error e0 → fetch 1 = Except.error e1 →
        fetch 2 = Except.error e2 → (get_youtube_object fetch 3).2 = Except.error e2) := by
  have hr : List.range 3 = [0, 1, 2] := rfl
  cases h0 : fetch 0 with
  | ok y0 =>
    simp_all [get_youtube_object, hr, gyoGo, h0, callsOf, paramsFor,
      laterCallsSleepPreceded, isSleep]
  | error e0 =>
    cases h1 : fetch 1 with
    | ok y1 =>
      cases hb0 : isRateLimitedErr e0 <;>
        simp_all [get_youtube_object, hr, gyoGo, callsOf, paramsFor,
          laterCallsSleepPreceded, isSleep]
    | error e1 =>
      cases h2 : fetch 2 with
      | ok y2 =>
        cases hb0 : isRateLimitedErr e0 <;> cases hb1 : isRateLimitedErr e1 <;>
          simp_all [get_youtube_object, hr, gyoGo, callsOf, paramsFor,
            laterCallsSleepPreceded, isSleep]
      | error e2 =>
        cases hb0 : isRateLimitedErr e0 <;> cases hb1 : isRateLimitedErr e1 <;>
          simp_all [get_youtube_object, hr, gyoGo, callsOf, paramsFor,
            laterCallsSleepPreceded, isSleep]

/-- C3 witness: a concretely failing oracle raises the final attempt's
exception and a concretely succeeding oracle returns its object. -/
theorem spec_c3_witness :
    (get_youtube_object (fun _ => Except.error "x") 3).2 = Except.error "x"
    ∧ (get_youtube_object (fun _ => Except.ok (⟨"T", 9, []⟩ : YtM)) 3).2 =
        Except.ok (some (⟨"T", 9, []⟩ : YtM)) :=
  ⟨(spec_c3 (fun _ => Except.error "x")).2.2.2.2.2.2 "x" "x" "x" rfl rfl rfl,
   (spec_c3 (fun _ => Except.ok (⟨"T", 9, []⟩ : YtM))).2.2.2.1 _ rfl⟩

/-- The retry loop cannot fall off the end of an attempt list that
contains the final attempt index: it exits early with a success or
re-raises on the final attempt. -/
theorem gyoGo_mem_ne_none (fetch : Nat → Except String YtM) (mr : Nat) :
    ∀ l : List Nat, (mr - 1) ∈ l → (gyoGo fetch mr l).2 ≠ Except.ok none := by
  intro l
  induction l with
  | nil => simp
  | cons a rest ih =>
    intro hmem
    cases hf : fetch a with
    | ok y => simp [gyoGo, hf]
    | error e =>
      by_cases ha : a = mr - 1
      · subst ha
        simp [gyoGo, hf]
      · have hrest : mr - 1 ∈ rest := by
          rcases List.mem_cons.mp hmem with h | h
          · exact absurd h.symm ha
          · exact h
        simp only [gyoGo, hf, ha, if_false, reduceIte]
        exact ih hrest

/-- The error taxonomy never produces the could-not-access response of
the `if not yt` guard. -/
theorem categorize_tag_ne (e : String) : (categorize e).tag ≠ "could_not_access" := by
  unfold categorize
  split_ifs <;> decide

/-- The stream-selection stage never produces the could-not-access
response of the `if not yt` guard. -/
theorem downloadCore_tag_ne (dlOk : StreamM → Bool) (ffOut : FfOut) (yt : YtM)
    (resolution : String) :
    (downloadCore dlOk ffOut yt resolution).2.tag ≠ "could_not_access" := by
  unfold downloadCore
  cases hp : progFilter yt resolution with
  | some vs =>
    cases hd : dlOk vs <;> simp [hd]
  | none =>
    cases hv : selectVideoStream yt resolution with
    | none =>
      cases ha : selectAudioStream yt <;> simp
    | some v =>
      cases ha : selectAudioStream yt with
      | none => simp
      | some a =>
        cases hdv : dlOk v <;> cases hda : dlOk a <;> cases ffOut <;>
          simp [hdv, hda]

/-- C10: `get_youtube_object` with a positive retry count never produces
the `None` of its final `return None` statement — it either returns an
object or re-raises — and the caller's 429 guard response can only arise
from that `None`, so it is unreachable. -/
theorem spec_c10 :
    (∀ (fetch : Nat → Except String YtM) (mr : Nat), 0 < mr →
      (get_youtube_object fetch mr).2 ≠ Except.ok none)
    ∧ (∀ (dlOk : StreamM → Bool) (ffOut : FfOut) (g : Except String (Option YtM))
        (body : Option ReqBody),
        (download_video dlOk ffOut g body).2.tag = "could_not_access" →
        g = Except.ok none) := by
  constructor
  · intro fetch mr h
    exact gyoGo_mem_ne_none fetch mr _ (List.mem_range.mpr (Nat.sub_lt h (by decide)))
  · intro dlOk ffOut g body htag
    cases body with
    | none =>
      simp only [download_video] at htag
      exact absurd htag (by decide)
    | some data =>
      simp only [download_video] at htag
      by_cases h1 : pyStrip (data.url.getD "") = ""
      · rw [if_pos h1] at htag
        exact absurd htag (by decide)
      · rw [if_neg h1] at htag
        cases hb : valid_domains.any fun d => pyStartsWith (pyStrip (data.url.getD "")) d with
        | false =>
          simp only [hb, Bool.not_false, if_true, reduceIte] at htag
          exact absurd htag (by decide)
        | true =>
          simp only [hb, Bool.not_true, Bool.false_eq_true, if_false, reduceIte] at htag
          cases g with
          | error e => exact absurd htag (categorize_tag_ne e)
          | ok o =>
            cases o with
            | none => rfl
            | some yt => exact absurd htag (downloadCore_tag_ne dlOk ffOut yt _)

/-- C10 witness: a concrete always-failing oracle never yields `None`,
and a concrete request that does return the could-not-access response
received exactly the `None` extraction result. -/
theorem spec_c10_witness :
    (get_youtube_object (fun _ => Except.error "x") 3).2 ≠ Except.ok none
    ∧ ((Except.ok none : Except String (Option YtM)) = Except.ok none) :=
  ⟨spec_c10.1 (fun _ => Except.error "x") 3 (by decide),
   spec_c10.2 (fun _ => true) FfOut.success (Except.ok none)
     (some ⟨some "https://youtu.be/abc", none⟩) (by decide)⟩

/-- C7: the avatar lookup queries only the URL derived from the hash of
the lowercased email (its result depends on the HTTP oracle only at that
URL), returns a result only when that request yields status 200, and
returns `None` on any non-200 status or any exception. -/
theorem spec_c7 (md5 : String → String) (get : String → GravResp) (email : String) :
    (∀ r, check_gravatar md5 get email = some r →
      ∃ body, get (gravatar_url md5 email) = GravResp.resp 200 body)
    ∧ (∀ status body, get (gravatar_url md5 email) = GravResp.resp status body →
        status ≠ 200 → check_gravatar md5 get email = none)
    ∧ (get (gravatar_url md5 email) = GravResp.exn → check_gravatar md5 get email = none)
    ∧ (∀ get2 : String → GravResp,
        get (gravatar_url md5 email) = get2 (gravatar_url md5 email) →
        check_gravatar md5 get email = check_gravatar md5 get2 email) := by
  refine ⟨?_, ?_, ?_, ?_⟩
  · intro r hr
    cases hg : get (gravatar_url md5 email) with
    | exn =>
      simp only [check_gravatar, hg] at hr
      cases hr
    | resp status body =>
      simp only [check_gravatar, hg] at hr
      by_cases hs : status = 200
      · subst hs
        exact ⟨body, rfl⟩
      · rw [if_neg hs] at hr
        cases hr
  · intro status body hg hs
    simp only [check_gravatar, hg]
    rw [if_neg hs]
  · intro hg
    simp [check_gravatar, hg]
  · intro get2 heq
    simp only [check_gravatar, heq]

/-- C7 witness: a concrete 200 response with a populated first entry
yields the two-key result, a concrete 404 yields `None`, and an oracle
agreeing at the queried URL gives the same outcome. -/
theorem spec_c7_witness :
    (∃ body, (fun _ : String => GravResp.resp 200
        (Except.ok (some [⟨some "u", some ⟨some "n"⟩⟩])))
        (gravatar_url (fun s => s) "A@B") = GravResp.resp 200 body)
    ∧ check_gravatar (fun s => s) (fun _ => GravResp.resp 404 (Except.ok none)) "A@B" =
        none := by
  constructor
  · exact (spec_c7 (fun s => s)
      (fun _ => GravResp.resp 200 (Except.ok (some [⟨some "u", some ⟨some "n"⟩⟩])))
      "A@B").1 ⟨some "u", some "n"⟩ rfl
  · exact (spec_c7 (fun s => s) (fun _ => GravResp.resp 404 (Except.ok none)) "A@B").2.1
      404 (Except.ok none) rfl (by decide)
